import Mathlib

/-
Verification of the Waveshare 1.54" v3 (GDEW0154M09) e-paper driver
(`src/epd1in54_v3/mod.rs` and `src/epd1in54_v3/command.rs`).

Each driver operation is embedded as a function producing the ordered trace
of transport-level events (reset pulses, command bytes, payloads, repeated
data bytes, busy-waits, delays) it emits.  The transport interface
(`crate::interface::DisplayInterface`) and the color type (`crate::color`)
are not under `src/`; they are modelled from the spec, each primitive
emitting one trace event.  The `assert!` calls in `set_ram_area` are
modelled with `Except`: `.error t` means the call panicked after having
emitted the trace `t`.
-/

namespace EpdWaveshare

/-- Width of the display, `WIDTH` in `epd1in54_v3/mod.rs`. -/
def WIDTH : Nat := 200

/-- Height of the display, `HEIGHT` in `epd1in54_v3/mod.rs`. -/
def HEIGHT : Nat := 200

/-- Modelled from the spec: the two-valued pixel color enumeration of
`crate::color` (its source is not under `src/`): Black and White. -/
inductive Color
  | black
  | white
deriving DecidableEq, Repr

/-- Modelled from the spec: the canonical byte-repeat value of a color used
when flooding a region (White is 0xFF, Black is 0x00). -/
def Color.get_byte_value : Color → Nat
  | .black => 0x00
  | .white => 0xFF

/-- Default Background Color, `DEFAULT_BACKGROUND_COLOR` in `mod.rs`. -/
def DEFAULT_BACKGROUND_COLOR : Color := .white

/-- Truncating cast to a byte, the Rust `as u8`. -/
def toU8 (n : Nat) : Nat := n % 256

namespace Command

/-- Opcode `PanelSetting` from `command.rs`. -/
def PanelSetting : Nat := 0x00

/-- Opcode `PowerOff` from `command.rs`. -/
def PowerOff : Nat := 0x02

/-- Opcode `PowerOn` from `command.rs`. -/
def PowerOn : Nat := 0x04

/-- Opcode `DeepSleep` from `command.rs`. -/
def DeepSleep : Nat := 0x07

/-- Opcode `DataStartTransmission1` from `command.rs`. -/
def DataStartTransmission1 : Nat := 0x10

/-- Opcode `DisplayRefresh` from `command.rs`. -/
def DisplayRefresh : Nat := 0x12

/-- Opcode `DataStartTransmission2` from `command.rs`. -/
def DataStartTransmission2 : Nat := 0x13

/-- Opcode `Internal4D` from `command.rs`. -/
def Internal4D : Nat := 0x4D

/-- Opcode `VcomAndDataIntervalSetting` from `command.rs`. -/
def VcomAndDataIntervalSetting : Nat := 0x50

/-- Opcode `TconSetting` from `command.rs`. -/
def TconSetting : Nat := 0x60

/-- Opcode `ResolutionSetting` from `command.rs`. -/
def ResolutionSetting : Nat := 0x61

/-- Opcode `InternalAA` from `command.rs`. -/
def InternalAA : Nat := 0xAA

/-- Opcode `InternalB6` from `command.rs`. -/
def InternalB6 : Nat := 0xB6

/-- Opcode `InternalE3` from `command.rs`. -/
def InternalE3 : Nat := 0xE3

/-- Opcode `InternalE9` from `command.rs`. -/
def InternalE9 : Nat := 0xE9

/-- Opcode `InternalF3` from `command.rs`. -/
def InternalF3 : Nat := 0xF3

/-- Opcode `SetRamXAddressStartEndPosition` from `command.rs`. -/
def SetRamXAddressStartEndPosition : Nat := 0x44

/-- Opcode `SetRamYAddressStartEndPosition` from `command.rs`. -/
def SetRamYAddressStartEndPosition : Nat := 0x45

/-- Opcode `SetRamXAddressCounter` from `command.rs`. -/
def SetRamXAddressCounter : Nat := 0x4E

/-- Opcode `SetRamYAddressCounter` from `command.rs`. -/
def SetRamYAddressCounter : Nat := 0x4F

end Command

/-- One transport-level event.  Bus transactions are `cmd`, `cmdWithData`
and `dataXTimes`; `reset`, `waitUntilIdle` and `delayMs` are control-line
or timing events that put no byte on the bus. -/
inductive Event
  | reset (initial_delay_us duration_us : Nat)
  | cmd (opcode : Nat)
  | cmdWithData (opcode : Nat) (payload : List Nat)
  | dataXTimes (value count : Nat)
  | waitUntilIdle
  | delayMs (ms : Nat)
deriving DecidableEq, Repr

/-- True for events that put bytes on the SPI bus. -/
def Event.isBusTransaction : Event → Bool
  | .cmd _ => true
  | .cmdWithData _ _ => true
  | .dataXTimes _ _ => true
  | _ => false

namespace DisplayInterface

/-- Modelled from the spec: transport primitive `reset` of
`crate::interface::DisplayInterface` (not under `src/`): pulse the reset
line with the given hold and recovery durations (microseconds). -/
def reset (initial_delay_us duration_us : Nat) : List Event :=
  [.reset initial_delay_us duration_us]

/-- Modelled from the spec: transport primitive `cmd`: transmit one opcode
byte in command framing. -/
def cmd (opcode : Nat) : List Event := [.cmd opcode]

/-- Modelled from the spec: transport primitive `cmd_with_data`: transmit
the opcode in command framing then the payload in data framing. -/
def cmd_with_data (opcode : Nat) (payload : List Nat) : List Event :=
  [.cmdWithData opcode payload]

/-- Modelled from the spec: transport primitive `data_x_times`: transmit
the byte `value` exactly `count` times in data framing. -/
def data_x_times (value count : Nat) : List Event := [.dataXTimes value count]

/-- Modelled from the spec: transport primitive `wait_until_idle`: poll the
busy line until ready; no bus transaction. -/
def wait_until_idle : List Event := [.waitUntilIdle]

end DisplayInterface

/-- Delay primitive `delay.delay_ms(n)`. -/
def delay_ms (n : Nat) : List Event := [.delayMs n]

/-- Driver state: the `Epd1in54` struct of `mod.rs`; only its background
color field is observable at this layer. -/
structure Epd1in54 where
  color : Color
deriving DecidableEq, Repr

/-- Driver `wait_until_idle` from `mod.rs` (wraps the interface primitive
with the fixed busy polarity `IS_BUSY_LOW`). -/
def wait_until_idle : List Event := DisplayInterface.wait_until_idle

/-- Function `init` from `mod.rs` lines 43-85: reset, panel setting,
internal tuning codes, resolution, Tcon, VCOM, one more internal code,
power on, 100 ms delay, busy-wait. -/
def init : List Event :=
  DisplayInterface.reset 10000 10000
  ++ DisplayInterface.cmd_with_data Command.PanelSetting [0xDF, 0x0E]
  ++ DisplayInterface.cmd_with_data Command.Internal4D [0x55]
  ++ DisplayInterface.cmd_with_data Command.InternalAA [0x0F]
  ++ DisplayInterface.cmd_with_data Command.InternalE9 [0x02]
  ++ DisplayInterface.cmd_with_data Command.InternalB6 [0x11]
  ++ DisplayInterface.cmd_with_data Command.InternalF3 [0x0A]
  ++ DisplayInterface.cmd_with_data Command.ResolutionSetting [0xC8, 0x00, 0xC8]
  ++ DisplayInterface.cmd_with_data Command.TconSetting [0x00]
  ++ DisplayInterface.cmd_with_data Command.VcomAndDataIntervalSetting [0x97]
  ++ DisplayInterface.cmd_with_data Command.InternalE3 [0x00]
  ++ DisplayInterface.cmd Command.PowerOn
  ++ delay_ms 100
  ++ wait_until_idle

/-- Function `set_ram_area` from `mod.rs` lines 273-306: busy-wait, assert
the window invariant, then transmit the X window bytes and the Y window
bytes.  `.error t` models the `assert!` panic after trace `t`. -/
def set_ram_area (start_x start_y end_x end_y : Nat) :
    Except (List Event) (List Event) :=
  let pre := wait_until_idle
  if start_x < end_x then
    if start_y < end_y then
      .ok (pre
        ++ DisplayInterface.cmd_with_data Command.SetRamXAddressStartEndPosition
            [toU8 (start_x >>> 3), toU8 (end_x >>> 3)]
        ++ DisplayInterface.cmd_with_data Command.SetRamYAddressStartEndPosition
            [toU8 start_y, toU8 (start_y >>> 8), toU8 end_y, toU8 (end_y >>> 8)])
    else .error pre
  else .error pre

/-- Function `set_ram_counter` from `mod.rs` lines 308-328: busy-wait, then
transmit the X counter byte and the Y counter bytes. -/
def set_ram_counter (x y : Nat) : List Event :=
  wait_until_idle
  ++ DisplayInterface.cmd_with_data Command.SetRamXAddressCounter [toU8 (x >>> 3)]
  ++ DisplayInterface.cmd_with_data Command.SetRamYAddressCounter
      [toU8 y, toU8 (y >>> 8)]

/-- Function `use_full_frame` from `mod.rs` lines 265-271: window over the
whole panel with inclusive ends `WIDTH - 1`, `HEIGHT - 1`, counter at the
origin. -/
def use_full_frame : Except (List Event) (List Event) :=
  match set_ram_area 0 0 (WIDTH - 1) (HEIGHT - 1) with
  | .error t => .error t
  | .ok t => .ok (t ++ set_ram_counter 0 0)

/-- Function `update_frame` from `mod.rs` lines 145-166: full window and
counter, busy-wait, phase-1 flood of the background color byte for
`WIDTH / 8 * HEIGHT` bytes, phase-2 caller buffer. -/
def update_frame (self : Epd1in54) (buffer : List Nat) :
    Except (List Event) (List Event) :=
  match use_full_frame with
  | .error t => .error t
  | .ok t => .ok (t
      ++ wait_until_idle
      ++ DisplayInterface.cmd Command.DataStartTransmission1
      ++ DisplayInterface.data_x_times self.color.get_byte_value (WIDTH / 8 * HEIGHT)
      ++ DisplayInterface.cmd_with_data Command.DataStartTransmission2 buffer)

/-- Function `update_partial_frame` from `mod.rs` lines 168-189: busy-wait,
window `[x, x+width) x [y, y+height)`, counter at `(x, y)`, phase-1 flood
sized `width / 8 * height`, phase-2 caller buffer. -/
def update_partial_frame (self : Epd1in54) (buffer : List Nat)
    (x y width height : Nat) : Except (List Event) (List Event) :=
  match set_ram_area x y (x + width) (y + height) with
  | .error t => .error (wait_until_idle ++ t)
  | .ok t => .ok (wait_until_idle ++ t
      ++ set_ram_counter x y
      ++ DisplayInterface.cmd Command.DataStartTransmission1
      ++ DisplayInterface.data_x_times self.color.get_byte_value (width / 8 * height)
      ++ DisplayInterface.cmd_with_data Command.DataStartTransmission2 buffer)

/-- Function `display_frame` from `mod.rs` lines 191-198: busy-wait,
display refresh, 10 ms delay, busy-wait. -/
def display_frame : List Event :=
  wait_until_idle
  ++ DisplayInterface.cmd Command.DisplayRefresh
  ++ delay_ms 10
  ++ wait_until_idle

/-- Function `update_and_display_frame` from `mod.rs` lines 200-209. -/
def update_and_display_frame (self : Epd1in54) (buffer : List Nat) :
    Except (List Event) (List Event) :=
  match update_frame self buffer with
  | .error t => .error t
  | .ok t => .ok (t ++ display_frame)

/-- Function `clear_frame` from `mod.rs` lines 211-238: busy-wait, full
window and counter, phase-1 flood of 0x00, phase-2 flood of the background
color byte, then `display_frame`. -/
def clear_frame (self : Epd1in54) : Except (List Event) (List Event) :=
  match use_full_frame with
  | .error t => .error (wait_until_idle ++ t)
  | .ok t => .ok (wait_until_idle ++ t
      ++ DisplayInterface.cmd Command.DataStartTransmission1
      ++ DisplayInterface.data_x_times 0x00 (WIDTH / 8 * HEIGHT)
      ++ DisplayInterface.cmd Command.DataStartTransmission2
      ++ DisplayInterface.data_x_times self.color.get_byte_value (WIDTH / 8 * HEIGHT)
      ++ display_frame)

/-- Function `sleep` from `mod.rs` lines 116-123: power off, busy-wait,
1000 ms discharge delay, deep sleep with payload 0xA5. -/
def sleep : List Event :=
  DisplayInterface.cmd Command.PowerOff
  ++ wait_until_idle
  ++ delay_ms 1000
  ++ DisplayInterface.cmd_with_data Command.DeepSleep [0xA5]

/-- Function `wake_up` from `mod.rs` lines 125-127: re-runs `init`. -/
def wake_up : List Event := init

/-- Function `new` from `mod.rs` lines 98-114: construct the driver with
the default background color, then run `init`; the pair is the constructed
state and the trace emitted during construction. -/
def new : Epd1in54 × List Event :=
  ({ color := DEFAULT_BACKGROUND_COLOR }, init)

/-- Function `set_background_color` from `mod.rs` lines 129-131: pure field
write; the second component is the (empty) trace it emits. -/
def set_background_color (self : Epd1in54) (color : Color) :
    Epd1in54 × List Event :=
  ({ self with color := color }, [])

/-- Function `background_color` from `mod.rs` lines 133-135. -/
def background_color (self : Epd1in54) : Color := self.color

/-- Spec-side definition, following the spec's words: the little-endian
9-bit split of a Y coordinate, low eight bits first, then the high part. -/
def nineBitSplitLE (y : Nat) : List Nat := [y % 256, y / 256]

theorem shiftRight_three (n : Nat) : n >>> 3 = n / 8 := by
  rw [Nat.shiftRight_eq_div_pow]

theorem shiftRight_eight (n : Nat) : n >>> 8 = n / 256 := by
  rw [Nat.shiftRight_eq_div_pow]

/-- Shared lemma: when both asserts pass, `set_ram_area` emits exactly the
busy-wait, the X window transaction and the Y window transaction, with the
raw truncating-cast bytes of the source. -/
theorem set_ram_area_raw (sx sy ex ey : Nat) (hx : sx < ex) (hy : sy < ey) :
    set_ram_area sx sy ex ey = .ok
      [.waitUntilIdle,
       .cmdWithData Command.SetRamXAddressStartEndPosition
         [toU8 (sx >>> 3), toU8 (ex >>> 3)],
       .cmdWithData Command.SetRamYAddressStartEndPosition
         [toU8 sy, toU8 (sy >>> 8), toU8 ey, toU8 (ey >>> 8)]] := by
  simp [set_ram_area, hx, hy, wait_until_idle, DisplayInterface.wait_until_idle,
    DisplayInterface.cmd_with_data]

/-- Shared lemma: within the encodable ranges the window bytes are exactly
the shifted X coordinates and the little-endian 9-bit Y splits. -/
theorem set_ram_area_ok (sx sy ex ey : Nat) (hx : sx < ex) (hy : sy < ey)
    (hex : ex < 2048) (hey : ey < 512) :
    set_ram_area sx sy ex ey = .ok
      [.waitUntilIdle,
       .cmdWithData Command.SetRamXAddressStartEndPosition [sx >>> 3, ex >>> 3],
       .cmdWithData Command.SetRamYAddressStartEndPosition
         (nineBitSplitLE sy ++ nineBitSplitLE ey)] := by
  rw [set_ram_area_raw sx sy ex ey hx hy]
  have b1 : toU8 (sx >>> 3) = sx >>> 3 := by
    rw [toU8, shiftRight_three]; omega
  have b2 : toU8 (ex >>> 3) = ex >>> 3 := by
    rw [toU8, shiftRight_three]; omega
  have b3 : toU8 (sy >>> 8) = sy / 256 := by
    rw [toU8, shiftRight_eight]; omega
  have b4 : toU8 (ey >>> 8) = ey / 256 := by
    rw [toU8, shiftRight_eight]; omega
  simp [b1, b2, b3, b4, toU8, nineBitSplitLE]
  rw [shiftRight_three sx, shiftRight_three ex, shiftRight_eight sy, shiftRight_eight ey]
  omega

/-- Shared lemma: within the encodable ranges the counter bytes are the
shifted X coordinate and the little-endian 9-bit Y split. -/
theorem set_ram_counter_eq (x y : Nat) (hx : x < 2048) (hy : y < 512) :
    set_ram_counter x y =
      [.waitUntilIdle,
       .cmdWithData Command.SetRamXAddressCounter [x >>> 3],
       .cmdWithData Command.SetRamYAddressCounter (nineBitSplitLE y)] := by
  have b1 : toU8 (x >>> 3) = x >>> 3 := by
    rw [toU8, shiftRight_three]; omega
  have b2 : toU8 (y >>> 8) = y / 256 := by
    rw [toU8, shiftRight_eight]; omega
  simp [set_ram_counter, wait_until_idle, DisplayInterface.wait_until_idle,
    DisplayInterface.cmd_with_data, b1, b2, toU8, nineBitSplitLE]
  rw [shiftRight_three x, shiftRight_eight y]
  omega

/-- C1: for every buffer and every current background color, `update_frame`
selects the full-panel window and origin counter, busy-waits, then emits
`DataStartTransmission1` followed by exactly `WIDTH / 8 * HEIGHT = 5000`
repetitions of the background color byte, then `DataStartTransmission2`
followed by the caller's buffer verbatim, regardless of buffer contents. -/
theorem update_frame_full_protocol (e : Epd1in54) (buffer : List Nat) :
    update_frame e buffer = .ok
      [.waitUntilIdle,
       .cmdWithData 0x44 [0, 24],
       .cmdWithData 0x45 [0, 0, 199, 0],
       .waitUntilIdle,
       .cmdWithData 0x4E [0],
       .cmdWithData 0x4F [0, 0],
       .waitUntilIdle,
       .cmd 0x10,
       .dataXTimes e.color.get_byte_value 5000,
       .cmdWithData 0x13 buffer] := rfl

/-- C3: every successful `init` performs, in this exact order, the reset
with 10 ms hold and recovery, panel setting with its two configuration
bytes, the internal tuning pairs 0x4D/0x55, 0xAA/0x0F, 0xE9/0x02, 0xB6/0x11
and 0xF3/0x0A, resolution setting encoding 200x200, Tcon setting, VCOM and
data interval setting, internal tuning 0xE3/0x00, power on, the 100 ms
settle delay and a busy-wait, with the opcode and payload values verbatim. -/
theorem init_exact_sequence :
    init =
      [.reset (10 * 1000) (10 * 1000),
       .cmdWithData 0x00 [0xDF, 0x0E],
       .cmdWithData 0x4D [0x55],
       .cmdWithData 0xAA [0x0F],
       .cmdWithData 0xE9 [0x02],
       .cmdWithData 0xB6 [0x11],
       .cmdWithData 0xF3 [0x0A],
       .cmdWithData 0x61 [0xC8, 0x00, 0xC8],
       .cmdWithData 0x60 [0x00],
       .cmdWithData 0x50 [0x97],
       .cmdWithData 0xE3 [0x00],
       .cmd 0x04,
       .delayMs 100,
       .waitUntilIdle] := rfl

/-- C7: `display_frame` performs, in order, a busy-wait, exactly one
display-refresh command, a 10 ms settle delay and a second busy-wait; the
refresh is the only bus transaction of the call. -/
theorem display_frame_protocol :
    display_frame = [.waitUntilIdle, .cmd 0x12, .delayMs 10, .waitUntilIdle]
    ∧ display_frame.filter (fun ev => ev.isBusTransaction) = [.cmd 0x12]
    ∧ (display_frame.filter (fun ev => ev = Event.waitUntilIdle)).length = 2 := by
  decide

/-- C8: `wake_up` emits exactly the `init` trace, which is also the trace a
fresh construction by `new` emits, so waking after `sleep` replays the
identical ordered opcode and payload list as a fresh construction. -/
theorem wake_up_replays_init :
    wake_up = init ∧ wake_up = new.2 := ⟨rfl, rfl⟩

/-- C9: `set_background_color` emits no bus transaction and is idempotent:
setting the same color twice gives the same driver state as setting it
once, and each call emits the empty trace. -/
theorem set_background_color_pure_idempotent (e : Epd1in54) (c : Color) :
    (set_background_color e c).2 = []
    ∧ set_background_color (set_background_color e c).1 c
        = set_background_color e c := ⟨rfl, rfl⟩

/-- C10: full-frame operations program the window through `use_full_frame`
with inclusive ends `WIDTH - 1 = 199` and `HEIGHT - 1 = 199`, so their
window transaction carries X bytes (0, 24) and Y end bytes (199, 0), and
this window transaction appears in both `update_frame` and `clear_frame`;
`update_partial_frame` instead passes exclusive ends, so a partial update
covering the whole panel (x = 0, width = 200) transmits X end byte 25. -/
theorem full_inclusive_partial_exclusive_window :
    use_full_frame = .ok
      [.waitUntilIdle, .cmdWithData 0x44 [0, 24], .cmdWithData 0x45 [0, 0, 199, 0],
       .waitUntilIdle, .cmdWithData 0x4E [0], .cmdWithData 0x4F [0, 0]]
    ∧ (∃ t, update_frame { color := .white } [] = .ok t
        ∧ Event.cmdWithData 0x44 [0, 24] ∈ t)
    ∧ (∃ t, clear_frame { color := .white } = .ok t
        ∧ Event.cmdWithData 0x44 [0, 24] ∈ t)
    ∧ update_partial_frame { color := .white } [] 0 0 200 200 = .ok
      [.waitUntilIdle, .waitUntilIdle, .cmdWithData 0x44 [0, 25],
       .cmdWithData 0x45 [0, 0, 200, 0], .waitUntilIdle, .cmdWithData 0x4E [0],
       .cmdWithData 0x4F [0, 0], .cmd 0x10, .dataXTimes 0xFF 5000,
       .cmdWithData 0x13 []] :=
  ⟨rfl, ⟨_, rfl, by decide⟩, ⟨_, rfl, by decide⟩, rfl⟩

/-- C2: for every window with `start_x < end_x` and `start_y < end_y` in
the encodable ranges, `set_ram_area` transmits X window bytes
`(start_x >>> 3, end_x >>> 3)` and Y window bytes equal to the
little-endian 9-bit splits of `start_y` and `end_y`; and for every `(x, y)`
within panel bounds, `set_ram_counter` transmits X byte `x >>> 3` and
Y bytes equal to the little-endian 9-bit split of `y`. -/
theorem ram_addressing_encoding (sx sy ex ey x y : Nat)
    (hx : sx < ex) (hy : sy < ey) (hex : ex < 2048) (hey : ey < 512)
    (hxb : x < 200) (hyb : y < 200) :
    set_ram_area sx sy ex ey = .ok
      [.waitUntilIdle,
       .cmdWithData 0x44 [sx >>> 3, ex >>> 3],
       .cmdWithData 0x45 (nineBitSplitLE sy ++ nineBitSplitLE ey)]
    ∧ set_ram_counter x y =
      [.waitUntilIdle,
       .cmdWithData 0x4E [x >>> 3],
       .cmdWithData 0x4F (nineBitSplitLE y)] :=
  ⟨set_ram_area_ok sx sy ex ey hx hy hex hey,
   set_ram_counter_eq x y (by omega) (by omega)⟩

/-- Witness for C2: the window (8, 0)-(24, 16) encodes to X bytes (1, 3)
and Y bytes (0, 0, 16, 0); the counter (8, 0) encodes to X byte 1 and
Y bytes (0, 0). -/
theorem ram_addressing_encoding_witness :
    set_ram_area 8 0 24 16 = .ok
      [.waitUntilIdle, .cmdWithData 0x44 [1, 3], .cmdWithData 0x45 [0, 0, 16, 0]]
    ∧ set_ram_counter 8 0 =
      [.waitUntilIdle, .cmdWithData 0x4E [1], .cmdWithData 0x4F [0, 0]] :=
  ram_addressing_encoding 8 0 24 16 8 0 (by decide) (by decide) (by decide)
    (by decide) (by decide) (by decide)

/-- C4: for every in-bounds nonempty region, `update_partial_frame`
performs, in order, a busy-wait, the window transaction for
`[x, x+width) x [y, y+height)`, the counter transaction for `(x, y)`,
a phase-1 flood of exactly `width / 8 * height` background color bytes,
and the phase-2 transmission of the supplied buffer verbatim. -/
theorem update_partial_frame_protocol (e : Epd1in54) (buffer : List Nat)
    (x y width height : Nat) (hw : 0 < width) (hh : 0 < height)
    (hxw : x + width ≤ 200) (hyh : y + height ≤ 200) :
    update_partial_frame e buffer x y width height = .ok
      ([Event.waitUntilIdle]
       ++ [.waitUntilIdle,
           .cmdWithData 0x44 [x >>> 3, (x + width) >>> 3],
           .cmdWithData 0x45 (nineBitSplitLE y ++ nineBitSplitLE (y + height))]
       ++ [.waitUntilIdle,
           .cmdWithData 0x4E [x >>> 3],
           .cmdWithData 0x4F (nineBitSplitLE y)]
       ++ [.cmd 0x10,
           .dataXTimes e.color.get_byte_value (width / 8 * height),
           .cmdWithData 0x13 buffer]) := by
  have h1 := set_ram_area_ok x y (x + width) (y + height) (by omega) (by omega)
    (by omega) (by omega)
  have h2 := set_ram_counter_eq x y (by omega) (by omega)
  simp only [update_partial_frame, h1, h2]
  simp [wait_until_idle, DisplayInterface.wait_until_idle, DisplayInterface.cmd,
    DisplayInterface.data_x_times, DisplayInterface.cmd_with_data,
    Command.SetRamXAddressStartEndPosition, Command.SetRamYAddressStartEndPosition,
    Command.SetRamXAddressCounter, Command.SetRamYAddressCounter,
    Command.DataStartTransmission1, Command.DataStartTransmission2]

/-- Witness for C4: a partial update at (x = 8, y = 0, width = 16,
height = 16) with a 32-byte buffer produces the window transaction with
X bytes (1, 3) and the counter transaction with X byte 1, then a 32-byte
flood and the buffer. -/
theorem update_partial_frame_protocol_witness :
    update_partial_frame { color := Color.white } (List.replicate 32 0) 8 0 16 16
      = .ok
      [.waitUntilIdle, .waitUntilIdle, .cmdWithData 0x44 [1, 3],
       .cmdWithData 0x45 [0, 0, 16, 0], .waitUntilIdle, .cmdWithData 0x4E [1],
       .cmdWithData 0x4F [0, 0], .cmd 0x10, .dataXTimes 0xFF 32,
       .cmdWithData 0x13 (List.replicate 32 0)] :=
  update_partial_frame_protocol { color := Color.white } (List.replicate 32 0)
    8 0 16 16 (by decide) (by decide) (by decide) (by decide)

/-- Counterexample for C5: a 1-byte buffer is the wrong length for the
16 x 16 region (which needs 32 bytes), yet `update_partial_frame` still
transmits it verbatim as phase-2 data; nothing rejects it. -/
theorem partial_wrong_length_still_transmitted :
    List.length [0x5A] ≠ 16 / 8 * 16
    ∧ update_partial_frame { color := Color.white } [0x5A] 8 0 16 16 = .ok
      [.waitUntilIdle, .waitUntilIdle, .cmdWithData 0x44 [1, 3],
       .cmdWithData 0x45 [0, 0, 16, 0], .waitUntilIdle, .cmdWithData 0x4E [1],
       .cmdWithData 0x4F [0, 0], .cmd 0x10, .dataXTimes 0xFF 32,
       .cmdWithData 0x13 [0x5A]] := ⟨by decide, rfl⟩

/-- Amended C5: `update_partial_frame` performs no buffer-length
validation; whatever the buffer's length, the buffer is transmitted
verbatim as the final phase-2 transaction, so the length precondition is
purely a caller obligation. -/
theorem update_partial_frame_no_length_validation (e : Epd1in54)
    (buffer : List Nat) (x y width height : Nat)
    (hw : 0 < width) (hh : 0 < height) :
    ∃ t, update_partial_frame e buffer x y width height
      = .ok (t ++ [Event.cmdWithData 0x13 buffer]) := by
  have h1 := set_ram_area_raw x y (x + width) (y + height) (by omega) (by omega)
  refine ⟨wait_until_idle
      ++ [.waitUntilIdle,
          .cmdWithData Command.SetRamXAddressStartEndPosition
            [toU8 (x >>> 3), toU8 ((x + width) >>> 3)],
          .cmdWithData Command.SetRamYAddressStartEndPosition
            [toU8 y, toU8 (y >>> 8), toU8 (y + height), toU8 ((y + height) >>> 8)]]
      ++ set_ram_counter x y
      ++ DisplayInterface.cmd Command.DataStartTransmission1
      ++ DisplayInterface.data_x_times e.color.get_byte_value
          (width / 8 * height), ?_⟩
  simp only [update_partial_frame, h1]
  simp [DisplayInterface.cmd_with_data, Command.DataStartTransmission2]

/-- Witness for the amended C5: the wrong-length 1-byte buffer at the
16 x 16 region is still sent as the phase-2 payload. -/
theorem update_partial_frame_no_length_validation_witness :
    0 < 16
    ∧ ∃ t, update_partial_frame { color := Color.white } [0x5A] 8 0 16 16
        = .ok (t ++ [Event.cmdWithData 0x13 [0x5A]]) :=
  ⟨by decide, update_partial_frame_no_length_validation { color := Color.white }
    [0x5A] 8 0 16 16 (by decide) (by decide)⟩

/-- C6: whenever `start_x >= end_x` or `start_y >= end_y`, `set_ram_area`
hits the assertion and panics having emitted only the busy-wait: no bus
transaction (neither the X nor the Y window command) reaches the bus. -/
theorem set_ram_area_assert_blocks (sx sy ex ey : Nat)
    (h : ex ≤ sx ∨ ey ≤ sy) :
    set_ram_area sx sy ex ey = .error [Event.waitUntilIdle]
    ∧ [Event.waitUntilIdle].all (fun ev => !ev.isBusTransaction) = true := by
  refine ⟨?_, by decide⟩
  by_cases hx : sx < ex
  · have hy : ¬ sy < ey := by omega
    simp [set_ram_area, hx, hy, wait_until_idle, DisplayInterface.wait_until_idle]
  · simp [set_ram_area, hx, wait_until_idle, DisplayInterface.wait_until_idle]

/-- Witness for C6: the degenerate window with `start_x = end_x = 5`
panics after only the busy-wait. -/
theorem set_ram_area_assert_blocks_witness :
    set_ram_area 5 0 5 1 = .error [Event.waitUntilIdle]
    ∧ [Event.waitUntilIdle].all (fun ev => !ev.isBusTransaction) = true :=
  set_ram_area_assert_blocks 5 0 5 1 (Or.inl (by decide))

end EpdWaveshare
